import Mathlib

set_option maxRecDepth 40000

/-!
# MailCanvas core engines — shallow embedding and verification

This file embeds the core subsystems of the MailCanvas visual e-mail editor
in Lean 4 and proves (or refutes) the specification claims about them:

* the block data model (`EditorBlock`, `BlockLayout`, …),
* the hierarchy engine (`groupSelectedBlocks` / `ungroupSelectedBlock`),
* the constraint resolution engine (`resizeCanvasWithConstraints`),
* the history manager (zundo temporal middleware over a partialized state),
* the snap/guide engine (`calculateSnapping`),
* the export compiler (`generateMJML` and the per-type generators).

Conventions of the embedding:

* JavaScript numbers are modelled as `ℚ` (the code performs only ring
  operations, comparisons, division and `Math.round`, and all claims are
  about exact values, never float rounding).
* `Math.round` (half-up) is `jround`, `Math.abs` is `jabs`.
* TypeScript `height : number | 'auto'` is `Option ℚ` (`none` = `'auto'`).
* `Record<string, string>` maps are association lists with first-match
  lookup, which matches the access patterns used by the code.
* Fresh identifiers produced by `Date.now()`/`Math.random()` are passed in
  as an explicit parameter.
-/

/-- `Math.round`: JavaScript rounds half-up (`⌊q + 1/2⌋`). -/
def jround (q : ℚ) : ℚ := ((⌊q + 1/2⌋ : ℤ) : ℚ)

/-- `Math.abs` on rationals. -/
def jabs (q : ℚ) : ℚ := if q < 0 then -q else q

/-- `Math.min` on two rationals (kernel-reducible). -/
def jmin (a b : ℚ) : ℚ := if a ≤ b then a else b

/-- `Math.max` on two rationals (kernel-reducible). -/
def jmax (a b : ℚ) : ℚ := if a ≤ b then b else a

/-- `Math.min(...)` over a list. The empty case (`Math.min()` = `+∞`) is
unreachable at every call site (guards ensure non-emptiness); `0` is a
placeholder. -/
def listMin (l : List ℚ) : ℚ :=
  match l with
  | [] => 0
  | h :: t => t.foldl jmin h

/-- `Math.max(...)` over a list; empty case as in `listMin`. -/
def listMax (l : List ℚ) : ℚ :=
  match l with
  | [] => 0
  | h :: t => t.foldl jmax h

/-- JavaScript `a || b` for strings (empty string is falsy). -/
def jsOrS (a b : String) : String := if a = "" then b else a

/-- JavaScript `a || b` where `a` may be `undefined` (and `''` is falsy). -/
def jsOrO (a : Option String) (b : String) : String :=
  match a with
  | none => b
  | some v => if v = "" then b else v

/-- JavaScript `a || b` for numbers (`0` is falsy). -/
def jsOrQ (a b : ℚ) : ℚ := if a = 0 then b else a

/-- The block type tag (`src/types/editor.ts`, `BlockType`). -/
inductive BlockType where
  | text | image | button | spacer | divider | social | shape | group | table | list
  deriving DecidableEq, Repr

/-- Horizontal anchoring mode (`constraints.horizontal`). -/
inductive HAnchor where
  | left | right | center | scale
  deriving DecidableEq, Repr

/-- Vertical anchoring mode (`constraints.vertical`). -/
inductive VAnchor where
  | top | bottom | center | scale
  deriving DecidableEq, Repr

/-- Figma-style constraints record (`EditorBlock.constraints`). -/
structure Constraints where
  horizontal : HAnchor
  vertical : VAnchor
  deriving DecidableEq, Repr

/-- Position and dimensions (`BlockLayout`); `height = none` is `'auto'`. -/
structure BlockLayout where
  x : ℚ
  y : ℚ
  width : ℚ
  height : Option ℚ
  zIndex : ℚ
  deriving DecidableEq, Repr

/-- One social profile (`SocialProfile`); the network tag is kept as its
string name, which is how the generator consumes it. -/
structure SocialProfile where
  network : String
  enabled : Bool
  url : String
  deriving DecidableEq, Repr

/-- Configuration of a social block (`SocialData`). -/
structure SocialData where
  networks : List SocialProfile
  iconSize : ℚ
  gap : ℚ
  iconStyle : String
  iconColor : String
  customColor : Option String
  deriving DecidableEq, Repr

/-- Configuration of a table block (`TableData`). -/
structure TableData where
  rows : ℚ
  cols : ℚ
  data : List (List String)
  hasHeader : Bool
  borderColor : String
  deriving DecidableEq, Repr

/-- Configuration of a list block (`ListData`); `style` is one of
`"disc" | "decimal" | "square"`. -/
structure ListData where
  items : List String
  style : String
  gap : ℚ
  deriving DecidableEq, Repr

/-- A design token (`DesignToken` in `useEditorStore`). -/
structure DesignToken where
  id : String
  name : String
  value : String
  kind : String
  deriving DecidableEq, Repr

/-- A single placeable block (`EditorBlock`). `styles` is the open-ended
string-keyed style map as an association list. -/
structure EditorBlock where
  id : String
  type : BlockType
  content : String
  styles : List (String × String)
  layout : BlockLayout
  name : String
  isLocked : Bool
  isVisible : Bool
  parentId : Option String
  socialData : Option SocialData
  tableData : Option TableData
  listData : Option ListData
  link : Option String
  constraints : Constraints
  deriving DecidableEq, Repr

/-- Canvas settings (subset used by the engines). -/
structure CanvasSettings where
  width : ℚ
  backgroundColor : String
  deriving DecidableEq, Repr

/-- The per-type name counters (`blockCounters`); only the fields the
modelled operations read are listed, one per block type as in the store. -/
structure BlockCounters where
  text : Nat
  image : Nat
  button : Nat
  spacer : Nat
  divider : Nat
  social : Nat
  shape : Nat
  group : Nat
  table : Nat
  list : Nat
  deriving DecidableEq, Repr

/-- The document state of the editor store (`useEditorStore`), restricted to
the fields the modelled operations touch. -/
structure EditorState where
  blocks : List EditorBlock
  selectedBlockIds : List String
  blockCounters : BlockCounters
  vars : List DesignToken
  expandedGroupIds : List String
  canvasSettings : CanvasSettings
  deriving DecidableEq, Repr

/-! ## Hierarchy Engine (`groupSelectedBlocks` / `ungroupSelectedBlock`,
store lines 1164–1284) -/

/-- The blocks actually grouped: selected and top-level
(`blocks.filter(b => selectedBlockIds.includes(b.id) && !b.parentId)`). -/
def selectedTopBlocks (s : EditorState) : List EditorBlock :=
  s.blocks.filter (fun b => s.selectedBlockIds.contains b.id && b.parentId == none)

/-- `typeof height === 'number' ? height : 100` (bounding-box fallback). -/
def heightOr100 (h : Option ℚ) : ℚ :=
  match h with
  | some v => v
  | none => 100

/-- `minX` of the selection bounding box. -/
def selMinX (s : EditorState) : ℚ := listMin ((selectedTopBlocks s).map (·.layout.x))

/-- `minY` of the selection bounding box. -/
def selMinY (s : EditorState) : ℚ := listMin ((selectedTopBlocks s).map (·.layout.y))

/-- `maxX` of the selection bounding box. -/
def selMaxX (s : EditorState) : ℚ :=
  listMax ((selectedTopBlocks s).map (fun b => b.layout.x + b.layout.width))

/-- `maxY` of the selection bounding box (with the `100` fallback for
`'auto'` heights). -/
def selMaxY (s : EditorState) : ℚ :=
  listMax ((selectedTopBlocks s).map (fun b => b.layout.y + heightOr100 b.layout.height))

/-- `Math.max(max, b.layout?.zIndex || 0)` folded over all blocks from `0`
(`|| 0` only rewrites a falsy `0` to `0`, so it is the identity here). -/
def maxZIndexOf (s : EditorState) : ℚ :=
  s.blocks.foldl (fun m b => jmax m b.layout.zIndex) 0

/-- The new group block created by `groupSelectedBlocks` (store lines
1197–1214); `freshId` stands for the generated `group_${Date.now()}_…` id. -/
def groupBlockOf (s : EditorState) (freshId : String) : EditorBlock :=
  { id := freshId
    type := BlockType.group
    content := ""
    styles := [("opacity", "1")]
    layout :=
      { x := selMinX s
        y := selMinY s
        width := selMaxX s - selMinX s
        height := some (selMaxY s - selMinY s)
        zIndex := maxZIndexOf s + 1 }
    name := "Group " ++ toString (s.blockCounters.group + 1)
    isLocked := false
    isVisible := true
    parentId := none
    socialData := none
    tableData := none
    listData := none
    link := none
    constraints := { horizontal := HAnchor.left, vertical := VAnchor.top } }

/-- The per-block update of `groupSelectedBlocks`: a selected top-level
block gets `parentId := freshId` and group-relative coordinates. -/
def groupShift (s : EditorState) (freshId : String) (b : EditorBlock) : EditorBlock :=
  if s.selectedBlockIds.contains b.id && b.parentId == none then
    { b with
      parentId := some freshId
      layout := { b.layout with x := b.layout.x - selMinX s, y := b.layout.y - selMinY s } }
  else b

/-- The mutation committed by `groupSelectedBlocks` once both guards have
passed (store lines 1177–1239). -/
def groupCore (s : EditorState) (freshId : String) : EditorState :=
  { s with
    blocks := s.blocks.map (groupShift s freshId) ++ [groupBlockOf s freshId]
    selectedBlockIds := [freshId]
    blockCounters := { s.blockCounters with group := s.blockCounters.group + 1 }
    expandedGroupIds := s.expandedGroupIds ++ [freshId] }

/-- `groupSelectedBlocks` (store lines 1164–1240). Both precondition
failures (`selectedBlockIds.length < 2`, fewer than two selected top-level
blocks) return the state unchanged. -/
def groupSelectedBlocks (s : EditorState) (freshId : String) : EditorState :=
  if s.selectedBlockIds.length < 2 then s
  else if (selectedTopBlocks s).length < 2 then s
  else groupCore s freshId

/-- `ungroupSelectedBlock` (store lines 1246–1284): requires exactly one
selected id naming a group block; children go back to absolute coordinates
and the group block is removed. -/
def ungroupSelectedBlock (s : EditorState) : EditorState :=
  match s.selectedBlockIds with
  | [groupId] =>
    match s.blocks.find? (fun b => b.id == groupId && b.type == BlockType.group) with
    | some groupBlock =>
      { s with
        blocks :=
          (s.blocks.filter (fun b => b.id != groupId)).map (fun b =>
            if b.parentId == some groupId then
              { b with
                parentId := none
                layout := { b.layout with
                  x := b.layout.x + groupBlock.layout.x
                  y := b.layout.y + groupBlock.layout.y } }
            else b)
        selectedBlockIds :=
          (s.blocks.filter (fun b => b.id != groupId && b.parentId == some groupId)).map (·.id) }
    | none => s
  | _ => s

/-! ## Constraint Resolution Engine (`resizeCanvasWithConstraints`,
store lines 676–744) -/

/-- The per-block layout update of `resizeCanvasWithConstraints` (the body
of the `blocks.map` at store lines 684–734): apply the horizontal
constraint rule, clamp `x` into `[0, newWidth - width]`, then force blocks
wider than the canvas to full width (scaling a numeric height).
The `block.constraints || {horizontal:'left',vertical:'top'}` fallback in
the source only fires for data missing the (required) field and is the
identity here. -/
def resizeBlock (oldWidth newWidth : ℚ) (block : EditorBlock) : EditorBlock :=
  let layout := block.layout
  let layout1 :=
    match block.constraints.horizontal with
    | HAnchor.left => layout
    | HAnchor.right =>
      let rightMargin := oldWidth - (layout.x + layout.width)
      { layout with x := newWidth - layout.width - rightMargin }
    | HAnchor.center =>
      let oldCenter := layout.x + layout.width / 2
      let centerRatio := oldCenter / oldWidth
      { layout with x := newWidth * centerRatio - layout.width / 2 }
    | HAnchor.scale =>
      let widthRatio := layout.width / oldWidth
      let xRatio := layout.x / oldWidth
      { layout with width := jround (newWidth * widthRatio), x := jround (newWidth * xRatio) }
  let layout2 := { layout1 with x := jmax 0 (jmin layout1.x (newWidth - layout1.width)) }
  let layout3 :=
    if newWidth < layout2.width then
      let scaleFactor := newWidth / layout2.width
      { layout2 with
        width := newWidth
        height :=
          match layout2.height with
          | some h => some (jround (h * scaleFactor))
          | none => none
        x := 0 }
    else layout2
  { block with layout := layout3 }

/-- `resizeCanvasWithConstraints` (store lines 676–744): no-op when the
width is unchanged; otherwise every block in the flat collection is mapped
through `resizeBlock` and the canvas width is updated. -/
def resizeCanvasWithConstraints (s : EditorState) (newWidth : ℚ) : EditorState :=
  let oldWidth := s.canvasSettings.width
  if oldWidth = newWidth then s
  else
    { s with
      blocks := s.blocks.map (resizeBlock oldWidth newWidth)
      canvasSettings := { s.canvasSettings with width := newWidth } }

/-! ## History Manager

The store is wrapped in the `zundo` `temporal` middleware with
`partialize: (state) => ({blocks, blockCounters})` and `limit: 50`
(store lines 1490–1499). The middleware itself is an external package, so
its stack discipline is modelled from the spec (§4.4): on every committed
mutation the pre-mutation partialized snapshot is pushed on the past stack
(newest first, capped at the limit) and the future stack is cleared;
`undo` pops one snapshot, pushes the current partialized state onto the
future stack and merges the popped snapshot over the present state — only
the partialized fields are restored. -/

/-- The subset of state checkpointed by history: exactly the fields named
by the `partialize` option (store lines 1492–1495). -/
structure Snapshot where
  blocks : List EditorBlock
  blockCounters : BlockCounters
  deriving DecidableEq, Repr

/-- The `partialize` projection of the store configuration. -/
def partializeState (s : EditorState) : Snapshot :=
  { blocks := s.blocks, blockCounters := s.blockCounters }

/-- Modelled from the spec: the temporal (history) state around the
document state — a bounded past stack, the present, and a future stack. -/
structure TemporalState where
  past : List Snapshot
  present : EditorState
  future : List Snapshot
  deriving DecidableEq, Repr

/-- Modelled from the spec: committing a mutation `f` through the temporal
middleware — push the pre-mutation partialized snapshot (evicting beyond
the `limit: 50` cap), apply `f`, clear the future stack. -/
def commitMutation (f : EditorState → EditorState) (t : TemporalState) : TemporalState :=
  { past := (partializeState t.present :: t.past).take 50
    present := f t.present
    future := [] }

/-- Merging a snapshot over the present state restores only the
partialized fields (`blocks`, `blockCounters`); everything else keeps its
current value. -/
def applySnapshot (sn : Snapshot) (s : EditorState) : EditorState :=
  { s with blocks := sn.blocks, blockCounters := sn.blockCounters }

/-- Modelled from the spec: `undo()` — no-op on an empty past stack,
otherwise pop one snapshot, push the current partialized state onto the
future stack, and restore the popped snapshot over the present. -/
def undoOnce (t : TemporalState) : TemporalState :=
  match t.past with
  | [] => t
  | sn :: rest =>
    { past := rest
      present := applySnapshot sn t.present
      future := partializeState t.present :: t.future }

/-- `deleteVariable` (store lines 1456–1460): removes a design token. -/
def deleteVariable (id : String) (s : EditorState) : EditorState :=
  { s with vars := s.vars.filter (fun v => v.id != id) }

/-! ## Snap/Guide Engine (`SmartGuides.tsx`, `calculateSnapping`) -/

/-- `SNAP_THRESHOLD` (SmartGuides.tsx line 17). -/
def SNAP_THRESHOLD : ℚ := 5

/-- Guide line axis (`GuideLine.type`). -/
inductive GuideAxis where
  | vertical | horizontal
  deriving DecidableEq, Repr

/-- A guide line (`GuideLine`): axis, shared coordinate, and the span along
the perpendicular axis (`start`/`end` in the source; `end` is a Lean
keyword, hence `stop`). -/
structure GuideLine where
  axis : GuideAxis
  position : ℚ
  start : ℚ
  stop : ℚ
  deriving DecidableEq, Repr

/-- Cached bounds of a block (`BlockBounds` / `getBlockBounds`): `'auto'`
heights default to `50`. -/
structure BlockBounds where
  id : String
  left : ℚ
  right : ℚ
  top : ℚ
  bottom : ℚ
  centerX : ℚ
  centerY : ℚ
  width : ℚ
  height : ℚ
  deriving DecidableEq, Repr

/-- `getBlockBounds` (SmartGuides.tsx lines 53–68). -/
def getBlockBounds (block : EditorBlock) : BlockBounds :=
  let x := block.layout.x
  let y := block.layout.y
  let width := block.layout.width
  let h := match block.layout.height with
    | some v => v
    | none => 50
  { id := block.id
    left := x
    right := x + width
    top := y
    bottom := y + h
    centerX := x + width / 2
    centerY := y + h / 2
    width := width
    height := h }

/-- Accumulator for one snap axis: the distance of the best snap so far
(`closestSnapX`/`closestSnapY`, `none` = the initial `Infinity`) and the
winning snapped coordinate (`snapX`/`snapY`). -/
structure AxisAcc where
  closest : Option ℚ
  snap : Option ℚ
  deriving DecidableEq, Repr

/-- `d < closest` against the `Infinity` initial value. -/
def ltClosest (d : ℚ) (closest : Option ℚ) : Bool :=
  match closest with
  | none => true
  | some c => decide (d < c)

/-- One alignment test (`if (dist < SNAP_THRESHOLD && dist < closest)`):
record distance `d` and snap target `pos` when it beats the current best. -/
def axisTest (d pos : ℚ) (a : AxisAcc) : AxisAcc :=
  if decide (d < SNAP_THRESHOLD) && ltClosest d a.closest then
    { closest := some d, snap := some pos }
  else a

/-- Combined accumulator for both axes, mirroring the four mutable
tokens of the candidate loop. -/
structure SnapAcc where
  xAcc : AxisAcc
  yAcc : AxisAcc
  deriving DecidableEq, Repr

/-- The five X-axis tests of the candidate loop (SmartGuides.tsx lines
105–140), in source order: left-left, right-right, left-right, right-left,
center-center. -/
def candidateXTests (dragX dragWidth : ℚ) (other : BlockBounds) (a : AxisAcc) : AxisAcc :=
  let currentLeft := dragX
  let currentRight := dragX + dragWidth
  let currentCenterX := dragX + dragWidth / 2
  let a := axisTest (jabs (currentLeft - other.left)) other.left a
  let a := axisTest (jabs (currentRight - other.right)) (other.right - dragWidth) a
  let a := axisTest (jabs (currentLeft - other.right)) other.right a
  let a := axisTest (jabs (currentRight - other.left)) (other.left - dragWidth) a
  let a := axisTest (jabs (currentCenterX - other.centerX)) (other.centerX - dragWidth / 2) a
  a

/-- The five Y-axis tests of the candidate loop (SmartGuides.tsx lines
142–177), in source order: top-top, bottom-bottom, top-bottom, bottom-top,
center-center. -/
def candidateYTests (dragY dragHeight : ℚ) (other : BlockBounds) (a : AxisAcc) : AxisAcc :=
  let currentTop := dragY
  let currentBottom := dragY + dragHeight
  let currentCenterY := dragY + dragHeight / 2
  let a := axisTest (jabs (currentTop - other.top)) other.top a
  let a := axisTest (jabs (currentBottom - other.bottom)) (other.bottom - dragHeight) a
  let a := axisTest (jabs (currentTop - other.bottom)) other.bottom a
  let a := axisTest (jabs (currentBottom - other.top)) (other.top - dragHeight) a
  let a := axisTest (jabs (currentCenterY - other.centerY)) (other.centerY - dragHeight / 2) a
  a

/-- The guides emitted for one candidate in the second pass (SmartGuides.tsx
lines 188–250), at the winning position `(finalX, finalY)`: vertical guides
only when an X snap won, horizontal only when a Y snap won; each aligned
edge/center (distance `< 1`) contributes one guide spanning the union of
the two elements' extents. -/
def guidesForCandidate (snapX? snapY? : Option ℚ) (finalX finalY dragWidth dragHeight : ℚ)
    (other : BlockBounds) : List GuideLine :=
  let finalRight := finalX + dragWidth
  let finalBottom := finalY + dragHeight
  let finalCenterX := finalX + dragWidth / 2
  let finalCenterY := finalY + dragHeight / 2
  (match snapX? with
   | some _ =>
     (if jabs (finalX - other.left) < 1 then
        [{ axis := GuideAxis.vertical, position := other.left,
           start := jmin finalY other.top, stop := jmax finalBottom other.bottom }]
      else []) ++
     (if jabs (finalRight - other.right) < 1 then
        [{ axis := GuideAxis.vertical, position := other.right,
           start := jmin finalY other.top, stop := jmax finalBottom other.bottom }]
      else []) ++
     (if jabs (finalCenterX - other.centerX) < 1 then
        [{ axis := GuideAxis.vertical, position := other.centerX,
           start := jmin finalY other.top, stop := jmax finalBottom other.bottom }]
      else [])
   | none => []) ++
  (match snapY? with
   | some _ =>
     (if jabs (finalY - other.top) < 1 then
        [{ axis := GuideAxis.horizontal, position := other.top,
           start := jmin finalX other.left, stop := jmax finalRight other.right }]
      else []) ++
     (if jabs (finalBottom - other.bottom) < 1 then
        [{ axis := GuideAxis.horizontal, position := other.bottom,
           start := jmin finalX other.left, stop := jmax finalRight other.right }]
      else []) ++
     (if jabs (finalCenterY - other.centerY) < 1 then
        [{ axis := GuideAxis.horizontal, position := other.centerY,
           start := jmin finalX other.left, stop := jmax finalRight other.right }]
      else [])
   | none => [])

/-- The key used by the guide deduplication (`g.type === guide.type &&
Math.abs(g.position - guide.position) < 1`). -/
def sameGuidePos (g guide : GuideLine) : Bool :=
  decide (g.axis = guide.axis) && decide (jabs (g.position - guide.position) < 1)

/-- The `guides.filter((guide, index, self) => index === self.findIndex(…))`
deduplication (SmartGuides.tsx lines 253–258): keep a guide only when it is
the first one with its `(axis, position-within-1px)` key. -/
def dedupGuides (gs : List GuideLine) : List GuideLine :=
  (gs.enum.filter (fun p => gs.findIdx (fun g => sameGuidePos g p.2) == p.1)).map Prod.snd

/-- The snap result (`SnapResult`). -/
structure SnapResult where
  snapX : Option ℚ
  snapY : Option ℚ
  guides : List GuideLine
  deriving DecidableEq, Repr

/-- `calculateSnapping` (SmartGuides.tsx lines 73–261): candidates are the
visible blocks other than the moving one; the closest in-threshold
alignment wins independently per axis; a second pass emits deduplicated
guide lines at the winning position. -/
def calculateSnapping (draggingBlock : EditorBlock) (dragX dragY : ℚ)
    (otherBlocks : List EditorBlock) : SnapResult :=
  let dragBounds := getBlockBounds draggingBlock
  let dragWidth := dragBounds.width
  let dragHeight := dragBounds.height
  let otherBounds :=
    (otherBlocks.filter (fun b => b.id != draggingBlock.id && b.isVisible)).map getBlockBounds
  let acc := otherBounds.foldl
    (fun (acc : SnapAcc) other =>
      { xAcc := candidateXTests dragX dragWidth other acc.xAcc
        yAcc := candidateYTests dragY dragHeight other acc.yAcc })
    { xAcc := { closest := none, snap := none }, yAcc := { closest := none, snap := none } }
  let snapX := acc.xAcc.snap
  let snapY := acc.yAcc.snap
  let finalX := match snapX with | some v => v | none => dragX
  let finalY := match snapY with | some v => v | none => dragY
  let guides := otherBounds.flatMap
    (guidesForCandidate snapX snapY finalX finalY dragWidth dragHeight)
  { snapX := snapX, snapY := snapY, guides := dedupGuides guides }

/-! ## Variable resolver (`variable-resolver.ts`) -/

/-- The apostrophe character (code 39). -/
def apos : Char := Char.ofNat 39

/-- `resolveColor` (variable-resolver.ts): `undefined`/falsy in,
`undefined` out; a `var:`-prefixed reference is looked up in the token
table with fallback to the raw reference string (`token?.value || color`). -/
def resolveColor (color : Option String) (tokens : List DesignToken) : Option String :=
  match color with
  | none => none
  | some c =>
    if c = "" then none
    else if c.startsWith "var:" then
      let variableId := c.drop 4
      match tokens.find? (fun v => v.id == variableId) with
      | some token => some (jsOrS token.value c)
      | none => some c
    else some c

/-- The color-bearing style keys resolved by `resolveStyles`. -/
def isColorKey (key : String) : Bool :=
  key == "color" || key == "backgroundColor" || key == "borderColor" ||
  key == "fill" || key == "stroke" || key == "gradientStart" || key == "gradientEnd"

/-- `resolveStyles` (variable-resolver.ts): resolve the color-bearing
entries through the token table, pass the rest through; a resolved value
can be `undefined` (`none`). -/
def resolveStyles (styles : List (String × String)) (tokens : List DesignToken) :
    List (String × Option String) :=
  styles.map (fun p =>
    if isColorKey p.1 then (p.1, resolveColor (some p.2) tokens) else (p.1, some p.2))

/-- Reading `styles.key` from a resolved style record (`undefined` when the
key is absent or resolved to `undefined`). -/
def getStyle (resolved : List (String × Option String)) (key : String) : Option String :=
  match resolved.lookup key with
  | some v => v
  | none => none

/-- `styles.key || dflt` on a resolved style record. -/
def styleOr (resolved : List (String × Option String)) (key dflt : String) : String :=
  jsOrO (getStyle resolved key) dflt

/-! ## Export Compiler (`mjml-generator.ts`) -/

/-- Replace every occurrence of the single character `c` by the string
`rep` (the `String.replace(/c/g, rep)` steps of `escapeHtml`). -/
def replaceChar (c : Char) (rep : String) (s : String) : String :=
  String.mk (s.data.flatMap (fun ch => if ch = c then rep.data else [ch]))

/-- `escapeHtml` (mjml-generator.ts lines 73–80): the five global
replacements in source order (`&` first, then `<`, `>`, `"`, `'`). -/
def escapeHtml (text : String) : String :=
  replaceChar apos "&#039;"
    (replaceChar '"' "&quot;"
      (replaceChar '>' "&gt;"
        (replaceChar '<' "&lt;"
          (replaceChar '&' "&amp;" text))))

/-- `SOCIAL_BRAND_COLORS` (mjml-generator.ts lines 28–51). -/
def SOCIAL_BRAND_COLORS : List (String × String) :=
  [("x", "#000000"), ("linkedin", "#0A66C2"), ("facebook", "#1877F2"),
   ("instagram", "#E4405F"), ("youtube", "#FF0000"), ("tiktok", "#000000"),
   ("threads", "#000000"), ("pinterest", "#E60023"), ("snapchat", "#FFFC00"),
   ("whatsapp", "#25D366"), ("telegram", "#26A5E4"), ("discord", "#5865F2"),
   ("reddit", "#FF4500"), ("github", "#181717"), ("dribbble", "#EA4C89"),
   ("behance", "#1769FF"), ("medium", "#000000"), ("twitch", "#9146FF"),
   ("spotify", "#1DB954"), ("apple", "#000000"), ("email", "#EA4335"),
   ("website", "#6B7280")]

/-- `generateTextMJML` (mjml-generator.ts lines 85–108). -/
def generateTextMJML (block : EditorBlock) (tokens : List DesignToken) : String :=
  let styles := resolveStyles block.styles tokens
  let color := styleOr styles "color" "#1e293b"
  let fontSize := styleOr styles "fontSize" "16px"
  let fontFamily := styleOr styles "fontFamily" "Arial, sans-serif"
  let fontWeight := styleOr styles "fontWeight" "400"
  let textAlign := styleOr styles "textAlign" "left"
  let lineHeight := styleOr styles "lineHeight" "1.5"
  let padding := styleOr styles "padding" "12px"
  "<mj-text \n    color=\"" ++ color ++ "\" \n    font-size=\"" ++ fontSize ++
    "\" \n    font-family=\"" ++ fontFamily ++ "\" \n    font-weight=\"" ++ fontWeight ++
    "\" \n    align=\"" ++ textAlign ++ "\" \n    line-height=\"" ++ lineHeight ++
    "\"\n    padding=\"" ++ padding ++ "\"\n  >" ++ escapeHtml block.content ++ "</mj-text>"

/-- `generateButtonMJML` (mjml-generator.ts lines 113–138). -/
def generateButtonMJML (block : EditorBlock) (tokens : List DesignToken) : String :=
  let styles := resolveStyles block.styles tokens
  let backgroundColor := styleOr styles "backgroundColor" "#0d9488"
  let color := styleOr styles "color" "#ffffff"
  let fontSize := styleOr styles "fontSize" "14px"
  let fontFamily := styleOr styles "fontFamily" "Arial, sans-serif"
  let fontWeight := styleOr styles "fontWeight" "600"
  let borderRadius := styleOr styles "borderRadius" "6px"
  let padding := styleOr styles "padding" "12px 24px"
  let href := jsOrO block.link "#"
  "<mj-button \n    background-color=\"" ++ backgroundColor ++ "\" \n    color=\"" ++ color ++
    "\" \n    font-size=\"" ++ fontSize ++ "\" \n    font-family=\"" ++ fontFamily ++
    "\" \n    font-weight=\"" ++ fontWeight ++ "\" \n    border-radius=\"" ++ borderRadius ++
    "\" \n    padding=\"" ++ padding ++ "\"\n    href=\"" ++ escapeHtml href ++
    "\"\n  >" ++ escapeHtml block.content ++ "</mj-button>"

/-- `generateImageMJML` (mjml-generator.ts lines 143–169): `blob:` URLs are
replaced by a visible warning placeholder. -/
def generateImageMJML (block : EditorBlock) (tokens : List DesignToken) : String :=
  let styles := resolveStyles block.styles tokens
  let src := block.content
  let width := toString block.layout.width ++ "px"
  let borderRadius := styleOr styles "borderRadius" "0px"
  let padding := styleOr styles "padding" "0"
  let alt := jsOrS block.name "Image"
  if src.startsWith "blob:" then
    "<mj-text padding=\"10px\" color=\"#ef4444\" font-size=\"12px\">\n      [Image: Please replace with a hosted URL]\n    </mj-text>"
  else
    "<mj-image \n    src=\"" ++ escapeHtml src ++ "\" \n    width=\"" ++ width ++
      "\" \n    border-radius=\"" ++ borderRadius ++ "\"\n    padding=\"" ++ padding ++
      "\"\n    alt=\"" ++ escapeHtml alt ++ "\"\n  />"

/-- `generateSpacerMJML` (mjml-generator.ts lines 174–180). -/
def generateSpacerMJML (block : EditorBlock) : String :=
  let height := match block.layout.height with
    | some h => toString h ++ "px"
    | none => "40px"
  "<mj-spacer height=\"" ++ height ++ "\" />"

/-- `generateDividerMJML` (mjml-generator.ts lines 185–199). -/
def generateDividerMJML (block : EditorBlock) (tokens : List DesignToken) : String :=
  let styles := resolveStyles block.styles tokens
  let borderColor := styleOr styles "borderColor" "#e2e8f0"
  let borderWidth := styleOr styles "borderWidth" "1px"
  "<mj-divider \n    border-color=\"" ++ borderColor ++ "\" \n    border-width=\"" ++
    borderWidth ++ "\"\n    padding=\"16px 0\"\n  />"

/-- `generateShapeMJML` (mjml-generator.ts lines 205–239): lines become
dividers, rectangles/circles become background-filled sections of fixed
height. -/
def generateShapeMJML (block : EditorBlock) (tokens : List DesignToken) : String :=
  let styles := resolveStyles block.styles tokens
  let shapeType := block.content
  let fill := styleOr styles "fill" "#0d9488"
  let height := match block.layout.height with
    | some h => toString h ++ "px"
    | none => "100px"
  let borderRadius := if shapeType = "circle" then "50%" else styleOr styles "borderRadius" "0px"
  if shapeType = "line" then
    "<mj-divider \n      border-color=\"" ++ fill ++ "\" \n      border-width=\"" ++ height ++
      "\"\n      padding=\"0\"\n    />"
  else
    "<mj-section \n    background-color=\"" ++ fill ++ "\" \n    border-radius=\"" ++
      borderRadius ++ "\"\n    padding=\"0\"\n  >\n    <mj-column>\n      <mj-spacer height=\"" ++
      height ++ "\" />\n    </mj-column>\n  </mj-section>"

/-- The per-profile color of a social element (the nested ternary of
mjml-generator.ts lines 266–272). -/
def socialProfileColor (socialData : SocialData) (profile : SocialProfile) : String :=
  if socialData.iconColor = "brand" then
    jsOrO (SOCIAL_BRAND_COLORS.lookup profile.network) "#6B7280"
  else if socialData.iconColor = "mono-dark" then "#1F2937"
  else if socialData.iconColor = "mono-light" then "#F9FAFB"
  else jsOrO socialData.customColor "#6B7280"

/-- `generateSocialMJML` (mjml-generator.ts lines 244–294). -/
def generateSocialMJML (block : EditorBlock) : String :=
  match block.socialData with
  | none => "<mj-text>Social links not configured</mj-text>"
  | some socialData =>
    let enabledNetworks := socialData.networks.filter (·.enabled)
    if enabledNetworks.isEmpty then
      "<mj-text color=\"#9ca3af\" font-size=\"12px\">No social icons enabled</mj-text>"
    else
      let iconSize := toString (jsOrQ socialData.iconSize 24) ++ "px"
      let padding := toString (jround (jsOrQ socialData.gap 12 / 2)) ++ "px"
      let socialElements := String.intercalate "\n      "
        (enabledNetworks.map (fun profile =>
          let color := socialProfileColor socialData profile
          let href := jsOrS profile.url "#"
          "<mj-social-element \n      name=\"" ++ profile.network ++ "\" \n      href=\"" ++
            escapeHtml href ++ "\"\n      icon-size=\"" ++ iconSize ++
            "\"\n      icon-padding=\"" ++ padding ++ "\"\n      background-color=\"" ++ color ++
            "\"\n    />"))
      "<mj-social \n    mode=\"horizontal\" \n    icon-size=\"" ++ iconSize ++
        "\"\n    icon-padding=\"" ++ padding ++ "\"\n    text-mode=\"false\"\n  >\n      " ++
        socialElements ++ "\n    </mj-social>"

/-- One table cell (`<th>`/`<td>` with the inline style string, trimmed). -/
def tableCell (isHeader : Bool) (borderColor bgColor : String) (cell : String) : String :=
  let tag := if isHeader then "th" else "td"
  let style := ("\n        border: 1px solid " ++ borderColor ++
    "; \n        padding: 8px; \n        text-align: left;\n        background-color: " ++
    (if isHeader then borderColor else bgColor) ++ ";\n        " ++
    (if isHeader then "font-weight: 600;" else "") ++ "\n      ").trim
  "<" ++ tag ++ " style=\"" ++ style ++ "\">" ++ escapeHtml cell ++ "</" ++ tag ++ ">"

/-- `generateTableMJML` (mjml-generator.ts lines 299–340). -/
def generateTableMJML (block : EditorBlock) (tokens : List DesignToken) : String :=
  let styles := resolveStyles block.styles tokens
  match block.tableData with
  | none => "<mj-text>Empty table</mj-text>"
  | some tableData =>
    if tableData.data.isEmpty then "<mj-text>Empty table</mj-text>"
    else
      let borderColor := jsOrS tableData.borderColor "#e2e8f0"
      let bgColor := styleOr styles "backgroundColor" "#ffffff"
      let textColor := styleOr styles "color" "#1e293b"
      let fontSize := styleOr styles "fontSize" "14px"
      let fontFamily := styleOr styles "fontFamily" "Arial, sans-serif"
      let rows := String.intercalate "\n        "
        (tableData.data.mapIdx (fun rowIndex row =>
          let isHeader := tableData.hasHeader && rowIndex == 0
          "<tr>" ++ String.join (row.map (tableCell isHeader borderColor bgColor)) ++ "</tr>"))
      "<mj-table \n    color=\"" ++ textColor ++ "\"\n    font-size=\"" ++ fontSize ++
        "\"\n    font-family=\"" ++ fontFamily ++ "\"\n  >\n        " ++ rows ++
        "\n    </mj-table>"

/-- `generateListMJML` (mjml-generator.ts lines 345–384). -/
def generateListMJML (block : EditorBlock) (tokens : List DesignToken) : String :=
  let styles := resolveStyles block.styles tokens
  match block.listData with
  | none => "<mj-text>Empty list</mj-text>"
  | some listData =>
    if listData.items.isEmpty then "<mj-text>Empty list</mj-text>"
    else
      let textColor := styleOr styles "color" "#1e293b"
      let fontSize := styleOr styles "fontSize" "14px"
      let fontFamily := styleOr styles "fontFamily" "Arial, sans-serif"
      let gap := jsOrQ listData.gap 8
      let isNumbered := listData.style = "decimal"
      let marker :=
        if listData.style = "disc" then "&#8226;"
        else if listData.style = "decimal" then jsOrS "" "&#8226;"
        else if listData.style = "square" then "&#9632;"
        else "&#8226;"
      let listItems := String.intercalate "<br/>"
        (listData.items.mapIdx (fun index item =>
          let pre := if isNumbered then toString (index + 1) ++ "." else marker
          pre ++ " " ++ escapeHtml item))
      "<mj-text \n    color=\"" ++ textColor ++ "\"\n    font-size=\"" ++ fontSize ++
        "\"\n    font-family=\"" ++ fontFamily ++ "\"\n    line-height=\"" ++
        toString ((3 : ℚ) / 2 + gap / 16) ++ "\"\n    padding=\"8px\"\n  >" ++ listItems ++
        "</mj-text>"

/-- The children of a group in the flat collection
(`allBlocks.filter(b => b.parentId === block.id)`). -/
def childrenOf (block : EditorBlock) (allBlocks : List EditorBlock) : List EditorBlock :=
  allBlocks.filter (fun b => b.parentId == some block.id)

/-- `[...].sort((a, b) => a.layout.y - b.layout.y)`: the ascending-`y`
stable sort used for roots and group children (`Array.prototype.sort` is
stable). -/
def sortByY (blocks : List EditorBlock) : List EditorBlock :=
  blocks.mergeSort (fun a b => decide (a.layout.y ≤ b.layout.y))

mutual

/-- `generateBlockMJML` (mjml-generator.ts lines 416–450): skip invisible
blocks, dispatch on the type tag. The `fuel` parameter models the JS call
stack for the group recursion; every external caller passes more fuel than
any possible parent-chain depth, so fuel exhaustion (which would be a stack
overflow in JS) never occurs on states the editor produces. The TS
`default` branch is unreachable with the closed `BlockType` enumeration. -/
def generateBlockMJML (fuel : Nat) (block : EditorBlock) (allBlocks : List EditorBlock)
    (tokens : List DesignToken) : String :=
  match fuel with
  | 0 => ""
  | fuel + 1 =>
    if block.isVisible = false then ""
    else
      match block.type with
      | BlockType.text => generateTextMJML block tokens
      | BlockType.button => generateButtonMJML block tokens
      | BlockType.image => generateImageMJML block tokens
      | BlockType.spacer => generateSpacerMJML block
      | BlockType.divider => generateDividerMJML block tokens
      | BlockType.shape => generateShapeMJML block tokens
      | BlockType.social => generateSocialMJML block
      | BlockType.table => generateTableMJML block tokens
      | BlockType.list => generateListMJML block tokens
      | BlockType.group => generateGroupMJML fuel block allBlocks tokens
termination_by (fuel, 0)

/-- `generateGroupMJML` (mjml-generator.ts lines 390–411): an empty group
renders to the empty string; otherwise the children are sorted by `y` and
rendered in place, dropping empty renders, joined by newlines — no
container element is emitted for the group itself. -/
def generateGroupMJML (fuel : Nat) (block : EditorBlock) (allBlocks : List EditorBlock)
    (tokens : List DesignToken) : String :=
  let children := childrenOf block allBlocks
  if children.isEmpty then ""
  else
    String.intercalate "\n"
      (((sortByY children).map (fun child => generateBlockMJML fuel child allBlocks tokens)).filter
        (fun s => s ≠ ""))
termination_by (fuel, 1)

end

/-- `wrapInSection` (mjml-generator.ts lines 455–473): empty renders are
dropped; non-line shapes and groups pass through unwrapped; everything else
is wrapped in a padded section/column. -/
def wrapInSection (blockMJML : String) (block : EditorBlock) : String :=
  if blockMJML.trim = "" then ""
  else if block.type = BlockType.shape ∧ block.content ≠ "line" then blockMJML
  else if block.type = BlockType.group then blockMJML
  else
    "    <mj-section padding=\"0\">\n      <mj-column>\n        " ++ blockMJML ++
      "\n      </mj-column>\n    </mj-section>"

/-- The top-level (parentless) blocks selected by the export compiler. -/
def rootBlocksOf (blocks : List EditorBlock) : List EditorBlock :=
  blocks.filter (fun b => b.parentId == none)

/-- The list of rendered, wrapped, nonempty sections the export joins: the
`sorted.map(block => wrapInSection(generateBlockMJML(…), block))
.filter(Boolean)` pipeline of `generateMJML` (lines 497–503). -/
def sectionsOf (blocks : List EditorBlock) (tokens : List DesignToken) : List String :=
  ((sortByY (rootBlocksOf blocks)).map (fun block =>
      wrapInSection (generateBlockMJML (blocks.length + 1) block blocks tokens) block)).filter
    (fun s => s ≠ "")

/-- `generateMJML` (mjml-generator.ts lines 485–526): root blocks sorted
ascending by `y`, rendered, wrapped and joined, inside the fixed document
frame sized to the canvas. -/
def generateMJML (blocks : List EditorBlock) (settings : CanvasSettings)
    (tokens : List DesignToken) : String :=
  let sectionsContent := String.intercalate "\n" (sectionsOf blocks tokens)
  let bgColor := jsOrO (resolveColor (some settings.backgroundColor) tokens) "#ffffff"
  "<mjml>\n  <mj-head>\n    <mj-attributes>\n      <mj-all font-family=\"Arial, Helvetica, sans-serif\" />\n      <mj-body background-color=\"" ++
    bgColor ++
    "\" />\n    </mj-attributes>\n    <mj-style>\n      /* Generated by MailCanvas */\n      a \x7b color: inherit; text-decoration: none; \x7d\n    </mj-style>\n  </mj-head>\n  <mj-body width=\"" ++
    toString settings.width ++ "px\" background-color=\"" ++ bgColor ++ "\">\n" ++
    sectionsContent ++ "\n  </mj-body>\n</mjml>"


/-! ## Concrete states used as witnesses and counterexamples -/

/-- All-zero name counters. -/
def zeroCounters : BlockCounters :=
  { text := 0, image := 0, button := 0, spacer := 0, divider := 0,
    social := 0, shape := 0, group := 0, table := 0, list := 0 }

/-- A concrete block with the given id, type, frame and parent; remaining
fields are inert defaults. -/
def mkBlock (id : String) (ty : BlockType) (x y w : ℚ) (h : Option ℚ)
    (parent : Option String) (anchor : HAnchor) : EditorBlock :=
  { id := id
    type := ty
    content := "Hello"
    styles := []
    layout := { x := x, y := y, width := w, height := h, zIndex := 0 }
    name := id
    isLocked := false
    isVisible := true
    parentId := parent
    socialData := none
    tableData := none
    listData := none
    link := none
    constraints := { horizontal := anchor, vertical := VAnchor.top } }

/-- Two selected top-level blocks at absolute (10, 20) and (110, 220). -/
def c1State : EditorState :=
  { blocks :=
      [mkBlock "a" BlockType.text 10 20 100 (some 50) none HAnchor.left,
       mkBlock "b" BlockType.image 110 220 80 (some 40) none HAnchor.left]
    selectedBlockIds := ["a", "b"]
    blockCounters := zeroCounters
    vars := []
    expandedGroupIds := []
    canvasSettings := { width := 600, backgroundColor := "#ffffff" } }

/-- A top-level group with one right-anchored child at relative (0, 0):
the resize engine recomputes the child like any other block. -/
def c3State : EditorState :=
  { blocks :=
      [mkBlock "g" BlockType.group 0 0 100 (some 100) none HAnchor.left,
       mkBlock "c" BlockType.text 0 0 50 (some 50) (some "g") HAnchor.right]
    selectedBlockIds := []
    blockCounters := zeroCounters
    vars := []
    expandedGroupIds := []
    canvasSettings := { width := 600, backgroundColor := "#ffffff" } }

/-- One left-anchored top-level block whose right edge (at 600) does not
fit a canvas narrowed to 300: the safety clamp moves it. -/
def c4State : EditorState :=
  { blocks := [mkBlock "d" BlockType.text 500 10 100 (some 50) none HAnchor.left]
    selectedBlockIds := []
    blockCounters := zeroCounters
    vars := []
    expandedGroupIds := []
    canvasSettings := { width := 600, backgroundColor := "#ffffff" } }

/-- A temporal state whose document holds a single design token and no
history. -/
def c5Temporal : TemporalState :=
  { past := []
    present :=
      { blocks := []
        selectedBlockIds := []
        blockCounters := zeroCounters
        vars := [{ id := "v1", name := "Brand Primary", value := "#0d9488", kind := "color" }]
        expandedGroupIds := []
        canvasSettings := { width := 600, backgroundColor := "#ffffff" } }
    future := [] }

/-- A visible text block whose `parentId` names a block that does not
exist. -/
def c9Orphan : EditorBlock :=
  mkBlock "orph" BlockType.text 10 10 100 (some 50) (some "ghost") HAnchor.left

/-- A scene containing one group and the orphan (whose parent is not the
group). -/
def c9Blocks : List EditorBlock :=
  [mkBlock "g2" BlockType.group 0 0 200 (some 200) none HAnchor.left, c9Orphan]

/-- Canvas settings shared by the export fixtures. -/
def exportSettings : CanvasSettings := { width := 600, backgroundColor := "#ffffff" }

/-- The per-character substitution that the five replacement passes of
`escapeHtml` jointly implement: each of the five special characters maps to
its HTML entity, all other characters to themselves. -/
def escChar (c : Char) : List Char :=
  if c = '&' then "&amp;".data
  else if c = '<' then "&lt;".data
  else if c = '>' then "&gt;".data
  else if c = '"' then "&quot;".data
  else if c = apos then "&#039;".data
  else [c]

/-- A group at absolute (50, 60) with two text children at relative y = 0
and y = 40 (stored out of order). -/
def c8Group : EditorBlock := mkBlock "grp" BlockType.group 50 60 200 (some 100) none HAnchor.left

/-- First child (relative y = 0). -/
def c8Child1 : EditorBlock := mkBlock "ca" BlockType.text 0 0 100 (some 30) (some "grp") HAnchor.left

/-- Second child (relative y = 40). -/
def c8Child2 : EditorBlock := mkBlock "cb" BlockType.text 0 40 100 (some 30) (some "grp") HAnchor.left

/-- The group scene, children stored in reverse y order. -/
def c8Blocks : List EditorBlock := [c8Group, c8Child2, c8Child1]

/-- Block "A": top-level text at y = 50 with the higher z-index, created
first. -/
def c2A : EditorBlock :=
  { mkBlock "A" BlockType.text 0 50 100 (some 30) none HAnchor.left with
    layout := { x := 0, y := 50, width := 100, height := some 30, zIndex := 5 } }

/-- Block "B": top-level text at y = 10 with the lower z-index, created
second. -/
def c2B : EditorBlock := mkBlock "B" BlockType.text 0 10 100 (some 30) none HAnchor.left

/-- The export-order scene: A inserted before B. -/
def c2Blocks : List EditorBlock := [c2A, c2B]

/-- The moving block of the snap fixtures (50 wide, 30 tall). -/
def c7Mover : EditorBlock := mkBlock "m" BlockType.text 500 300 50 (some 30) none HAnchor.left

/-- Three candidates with distinct tops/heights but a common vertical
center at y = 100. -/
def c7Candidates : List EditorBlock :=
  [mkBlock "ca" BlockType.text 0 75 50 (some 50) none HAnchor.left,
   mkBlock "cb" BlockType.text 200 50 50 (some 100) none HAnchor.left,
   mkBlock "cc" BlockType.text 400 90 50 (some 20) none HAnchor.left]

/-- The single horizontal guide produced at the shared center line. -/
def c7Guide : GuideLine :=
  { axis := GuideAxis.horizontal, position := 100, start := 0, stop := 170 }

/-- The stationary block of the threshold test: left edge at x = 100,
40 wide, 50 tall, at the top of the canvas. -/
def c6Cand : EditorBlock := mkBlock "c1" BlockType.text 100 0 40 (some 50) none HAnchor.left

/-- The dragged block of the threshold test: left edge at x = 103 before
the drag, 50 x 50, far below the candidate. -/
def c6Mover : EditorBlock := mkBlock "m2" BlockType.text 103 300 50 (some 50) none HAnchor.left

/-- The single vertical guide of the threshold test. -/
def c6Guide : GuideLine := { axis := GuideAxis.vertical, position := 100, start := 0, stop := 350 }

/-! # Theorems -/

/-! ## C1 — group/ungroup round trip -/

/-- `groupShift` never changes a block's id. -/
theorem groupShift_id (s : EditorState) (freshId : String) (b : EditorBlock) :
    (groupShift s freshId b).id = b.id := by
  unfold groupShift
  split <;> rfl

/-- When both guards pass, `groupSelectedBlocks` commits `groupCore`. -/
theorem groupSelectedBlocks_eq_core (s : EditorState) (freshId : String)
    (hsel : 2 ≤ s.selectedBlockIds.length) (htwo : 2 ≤ (selectedTopBlocks s).length) :
    groupSelectedBlocks s freshId = groupCore s freshId := by
  unfold groupSelectedBlocks
  rw [if_neg (by omega), if_neg (by omega)]

/-- Unfolding `ungroupSelectedBlock` when exactly one id is selected and it
resolves to a group block. -/
theorem ungroupSelectedBlock_eq (s : EditorState) (gid : String) (G : EditorBlock)
    (hsel : s.selectedBlockIds = [gid])
    (hfind : s.blocks.find? (fun b => b.id == gid && b.type == BlockType.group) = some G) :
    ungroupSelectedBlock s =
      { s with
        blocks :=
          (s.blocks.filter (fun b => b.id != gid)).map (fun b =>
            if b.parentId == some gid then
              { b with
                parentId := none
                layout := { b.layout with
                  x := b.layout.x + G.layout.x
                  y := b.layout.y + G.layout.y } }
            else b)
        selectedBlockIds :=
          (s.blocks.filter (fun b => b.id != gid && b.parentId == some gid)).map (·.id) } := by
  simp only [ungroupSelectedBlock, hsel, hfind]

/-- `find?` of the group id over the regrouped blocks returns the freshly
created group block, provided the fresh id collides with no existing id. -/
theorem groupCore_find (s : EditorState) (freshId : String)
    (hfresh : ∀ b ∈ s.blocks, b.id ≠ freshId) :
    (groupCore s freshId).blocks.find?
        (fun b => b.id == freshId && b.type == BlockType.group) =
      some (groupBlockOf s freshId) := by
  show (s.blocks.map (groupShift s freshId) ++ [groupBlockOf s freshId]).find? _ = _
  rw [List.find?_append]
  have h1 : (s.blocks.map (groupShift s freshId)).find?
      (fun b => b.id == freshId && b.type == BlockType.group) = none := by
    rw [List.find?_eq_none]
    intro x hx
    obtain ⟨b, hb, rfl⟩ := List.mem_map.mp hx
    simp [groupShift_id, hfresh b hb]
  rw [h1]
  simp [List.find?, groupBlockOf]

/-- Filtering the group id out of the regrouped blocks removes exactly the
new group block. -/
theorem groupCore_filter (s : EditorState) (freshId : String)
    (hfresh : ∀ b ∈ s.blocks, b.id ≠ freshId) :
    (groupCore s freshId).blocks.filter (fun b => b.id != freshId) =
      s.blocks.map (groupShift s freshId) := by
  show ((s.blocks.map (groupShift s freshId) ++ [groupBlockOf s freshId]).filter _) = _
  rw [List.filter_append]
  have h2 : (s.blocks.map (groupShift s freshId)).filter (fun b => b.id != freshId) =
      s.blocks.map (groupShift s freshId) := by
    rw [List.filter_eq_self]
    intro a ha
    obtain ⟨b, hb, rfl⟩ := List.mem_map.mp ha
    simp [groupShift_id, hfresh b hb]
  have h3 : ([groupBlockOf s freshId] : List EditorBlock).filter (fun b => b.id != freshId) =
      [] := by
    simp [groupBlockOf]
  rw [h2, h3, List.append_nil]

/-- **C1.** For every document state and every selection of at least two
top-level (parentless) blocks, `groupSelectedBlocks` followed immediately
by `ungroupSelectedBlock` on the resulting group restores every selected
block's absolute `(x, y)` and resets its `parentId` to `null`. `freshId`
stands for the generated group id, which by construction
(`Date.now()`/`Math.random()`) collides with no existing block id. -/
theorem group_ungroup_roundtrip (s : EditorState) (freshId : String)
    (hfresh : ∀ b ∈ s.blocks, b.id ≠ freshId)
    (hsel : 2 ≤ s.selectedBlockIds.length)
    (htwo : 2 ≤ (selectedTopBlocks s).length)
    (htop : ∀ b ∈ s.blocks, s.selectedBlockIds.contains b.id = true → b.parentId = none) :
    (ungroupSelectedBlock (groupSelectedBlocks s freshId)).blocks.length = s.blocks.length ∧
    ∀ i (hi : i < s.blocks.length)
      (hi2 : i < (ungroupSelectedBlock (groupSelectedBlocks s freshId)).blocks.length),
      s.selectedBlockIds.contains (s.blocks[i]).id = true →
        ((ungroupSelectedBlock (groupSelectedBlocks s freshId)).blocks[i]).id =
            (s.blocks[i]).id ∧
        ((ungroupSelectedBlock (groupSelectedBlocks s freshId)).blocks[i]).layout.x =
            (s.blocks[i]).layout.x ∧
        ((ungroupSelectedBlock (groupSelectedBlocks s freshId)).blocks[i]).layout.y =
            (s.blocks[i]).layout.y ∧
        ((ungroupSelectedBlock (groupSelectedBlocks s freshId)).blocks[i]).parentId = none := by
  rw [groupSelectedBlocks_eq_core s freshId hsel htwo]
  rw [ungroupSelectedBlock_eq (groupCore s freshId) freshId (groupBlockOf s freshId) rfl
    (groupCore_find s freshId hfresh)]
  simp only [groupCore_filter s freshId hfresh, List.map_map]
  constructor
  · simp
  · intro i hi hi2 hcont
    have hb : s.blocks[i] ∈ s.blocks := List.getElem_mem hi
    have hparent : (s.blocks[i]).parentId = none := htop _ hb hcont
    have hcond : (s.selectedBlockIds.contains (s.blocks[i]).id &&
        ((s.blocks[i]).parentId == none)) = true := by
      rw [hcont, hparent]
      rfl
    have hshift : groupShift s freshId s.blocks[i] =
        { s.blocks[i] with
          parentId := some freshId
          layout := { (s.blocks[i]).layout with
            x := (s.blocks[i]).layout.x - selMinX s
            y := (s.blocks[i]).layout.y - selMinY s } } := by
      unfold groupShift
      rw [if_pos hcond]
    simp only [List.getElem_map, Function.comp_apply, hshift]
    simp [groupBlockOf]

/-- **C1 witness.** The round trip evaluated on a concrete two-block
selection. -/
theorem group_ungroup_roundtrip_witness :
    (∀ b ∈ c1State.blocks, b.id ≠ "g1") ∧
    2 ≤ c1State.selectedBlockIds.length ∧
    2 ≤ (selectedTopBlocks c1State).length ∧
    (∀ b ∈ c1State.blocks,
      c1State.selectedBlockIds.contains b.id = true → b.parentId = none) ∧
    ((ungroupSelectedBlock (groupSelectedBlocks c1State "g1")).blocks.length =
        c1State.blocks.length ∧
      ∀ i (hi : i < c1State.blocks.length)
        (hi2 : i < (ungroupSelectedBlock (groupSelectedBlocks c1State "g1")).blocks.length),
        c1State.selectedBlockIds.contains (c1State.blocks[i]).id = true →
          ((ungroupSelectedBlock (groupSelectedBlocks c1State "g1")).blocks[i]).id =
              (c1State.blocks[i]).id ∧
          ((ungroupSelectedBlock (groupSelectedBlocks c1State "g1")).blocks[i]).layout.x =
              (c1State.blocks[i]).layout.x ∧
          ((ungroupSelectedBlock (groupSelectedBlocks c1State "g1")).blocks[i]).layout.y =
              (c1State.blocks[i]).layout.y ∧
          ((ungroupSelectedBlock (groupSelectedBlocks c1State "g1")).blocks[i]).parentId =
              none) :=
  ⟨by decide, by decide, by decide, by decide,
    group_ungroup_roundtrip c1State "g1" (by decide) (by decide) (by decide) (by decide)⟩

/-! ## C3 / C4 — resize with constraints -/

/-- A left-anchored block whose frame already fits the new canvas width
(`0 ≤ x` and `x + width ≤ newWidth`) passes through `resizeBlock`
unchanged: the `left` rule does not touch `x`, the clamp is the identity on
an in-bounds `x`, and the full-width safety clamp does not fire. -/
theorem resizeBlock_left_inbounds (oldWidth newWidth : ℚ) (b : EditorBlock)
    (hL : b.constraints.horizontal = HAnchor.left)
    (h0 : 0 ≤ b.layout.x) (h1 : b.layout.x + b.layout.width ≤ newWidth) :
    resizeBlock oldWidth newWidth b = b := by
  have hxw : b.layout.x ≤ newWidth - b.layout.width := by linarith
  have hw : ¬ newWidth < b.layout.width := by
    intro h
    linarith
  unfold resizeBlock
  rw [hL]
  simp only [jmin, jmax, if_pos hxw, if_pos h0]
  rw [if_neg hw]

/-- **C3 counterexample.** In `c3State` the child block (index 1) has a
non-null `parentId`, yet resizing the canvas from 600 to 800 changes its
layout: its relative `x` moves from 0 to 200 (the `right` anchoring rule
and clamp are applied to children exactly as to top-level blocks). -/
theorem resize_touches_group_child :
    ((resizeCanvasWithConstraints c3State 800).blocks.get ⟨1, by decide⟩).parentId =
        some "g" ∧
    ((resizeCanvasWithConstraints c3State 800).blocks.get ⟨1, by decide⟩).layout.x = 200 ∧
    (c3State.blocks.get ⟨1, by decide⟩).layout.x = 0 := by
  with_unfolding_all decide

/-- **C3 (amended).** The resize engine maps every block — children
included — through the same per-block constraint rule; a group child keeps
its layout unchanged when its own anchoring is `left` and its relative
frame fits the new width, but children are not exempt in general. -/
theorem resize_left_child_unchanged (s : EditorState) (newWidth : ℚ) (b : EditorBlock)
    (hb : b ∈ s.blocks) (_hchild : b.parentId ≠ none)
    (hL : b.constraints.horizontal = HAnchor.left)
    (h0 : 0 ≤ b.layout.x) (h1 : b.layout.x + b.layout.width ≤ newWidth) :
    resizeBlock s.canvasSettings.width newWidth b = b ∧
    b ∈ (resizeCanvasWithConstraints s newWidth).blocks := by
  have hkeep := resizeBlock_left_inbounds s.canvasSettings.width newWidth b hL h0 h1
  refine ⟨hkeep, ?_⟩
  simp only [resizeCanvasWithConstraints]
  split
  · exact hb
  · exact List.mem_map.mpr ⟨b, hb, hkeep⟩

/-- **C3 witness.** The amended statement evaluated on a concrete state: a
left-anchored child at relative (0,0) of width 50 survives a resize to
width 800 unchanged. -/
theorem resize_left_child_unchanged_witness :
    (mkBlock "cl" BlockType.text 0 0 50 (some 50) (some "g") HAnchor.left) ∈
        ({ c3State with
            blocks := c3State.blocks ++
              [mkBlock "cl" BlockType.text 0 0 50 (some 50) (some "g") HAnchor.left] } :
          EditorState).blocks ∧
    (resizeBlock 600 800 (mkBlock "cl" BlockType.text 0 0 50 (some 50) (some "g") HAnchor.left) =
        mkBlock "cl" BlockType.text 0 0 50 (some 50) (some "g") HAnchor.left ∧
      (mkBlock "cl" BlockType.text 0 0 50 (some 50) (some "g") HAnchor.left) ∈
        (resizeCanvasWithConstraints
            { c3State with
              blocks := c3State.blocks ++
                [mkBlock "cl" BlockType.text 0 0 50 (some 50) (some "g") HAnchor.left] }
            800).blocks) :=
  ⟨by decide,
    resize_left_child_unchanged _ 800 _ (by decide) (by decide) (by decide)
      (by with_unfolding_all decide) (by with_unfolding_all decide)⟩

/-- **C4 counterexample.** A top-level block anchored `left` at `x = 500`,
width 100, is *not* untouched by a resize from 600 to 300: the clamp moves
its `x` from 500 to 200. -/
theorem resize_moves_left_anchored_block :
    ((resizeCanvasWithConstraints c4State 300).blocks.get ⟨0, by decide⟩).layout.x = 200 ∧
    (c4State.blocks.get ⟨0, by decide⟩).layout.x = 500 ∧
    (c4State.blocks.get ⟨0, by decide⟩).constraints.horizontal = HAnchor.left ∧
    (c4State.blocks.get ⟨0, by decide⟩).parentId = none := by
  with_unfolding_all decide

/-- **C4 (amended).** A top-level block anchored `left` keeps its entire
layout across any canvas resize *provided* its frame fits the new width
(`0 ≤ x` and `x + width ≤ newWidth`); outside those bounds the clamp (or
the full-width safety clamp) repositions it. -/
theorem resize_left_top_level_unchanged (s : EditorState) (newWidth : ℚ) (b : EditorBlock)
    (hb : b ∈ s.blocks) (_htop : b.parentId = none)
    (hL : b.constraints.horizontal = HAnchor.left)
    (h0 : 0 ≤ b.layout.x) (h1 : b.layout.x + b.layout.width ≤ newWidth) :
    resizeBlock s.canvasSettings.width newWidth b = b ∧
    b ∈ (resizeCanvasWithConstraints s newWidth).blocks := by
  have hkeep := resizeBlock_left_inbounds s.canvasSettings.width newWidth b hL h0 h1
  refine ⟨hkeep, ?_⟩
  simp only [resizeCanvasWithConstraints]
  split
  · exact hb
  · exact List.mem_map.mpr ⟨b, hb, hkeep⟩

/-- **C4 witness.** The amended statement evaluated on a concrete
top-level left-anchored block that fits the new width. -/
theorem resize_left_top_level_unchanged_witness :
    (mkBlock "d" BlockType.text 500 10 100 (some 50) none HAnchor.left) ∈ c4State.blocks ∧
    (resizeBlock 600 700 (mkBlock "d" BlockType.text 500 10 100 (some 50) none HAnchor.left) =
        mkBlock "d" BlockType.text 500 10 100 (some 50) none HAnchor.left ∧
      (mkBlock "d" BlockType.text 500 10 100 (some 50) none HAnchor.left) ∈
        (resizeCanvasWithConstraints c4State 700).blocks) :=
  ⟨by decide,
    resize_left_top_level_unchanged c4State 700 _ (by decide) (by decide) (by decide)
      (by with_unfolding_all decide) (by with_unfolding_all decide)⟩

/-! ## C5 — history coverage of design tokens -/

/-- **C5 counterexample.** Deleting the only design token and immediately
undoing does *not* restore it: the snapshot pushed by the temporal
middleware contains only `blocks` and `blockCounters` (`partialize`), so
the token table stays empty after the undo. -/
theorem undo_does_not_restore_token :
    (undoOnce (commitMutation (deleteVariable "v1") c5Temporal)).present.vars = [] ∧
    c5Temporal.present.vars ≠ [] := by
  decide

/-- **C5 (amended).** Only `blocks` and `blockCounters` are history-tracked
(the `partialize` projection); design-token mutations are outside the
snapshot, so an undo immediately after `deleteVariable` leaves the token
deleted while faithfully restoring `blocks` and `blockCounters`. -/
theorem history_excludes_design_tokens (t : TemporalState) (id : String) :
    (undoOnce (commitMutation (deleteVariable id) t)).present.vars =
        t.present.vars.filter (fun v => v.id != id) ∧
    (undoOnce (commitMutation (deleteVariable id) t)).present.blocks = t.present.blocks ∧
    (undoOnce (commitMutation (deleteVariable id) t)).present.blockCounters =
        t.present.blockCounters :=
  ⟨rfl, rfl, rfl⟩

/-! ## C9 — orphaned group children in the export -/

/-- **C9 counterexample.** A visible block whose `parentId` names a
nonexistent block is *silently dropped* by the export compiler, not treated
as top-level: the generated document for the orphan-only scene is
byte-identical to the document for the empty scene. -/
theorem orphan_dropped_from_export :
    c9Orphan.isVisible = true ∧
    c9Orphan.parentId = some "ghost" ∧
    (∀ b ∈ [c9Orphan], b.id ≠ "ghost") ∧
    generateMJML [c9Orphan] exportSettings [] = generateMJML [] exportSettings [] := by
  with_unfolding_all decide

/-- **C9 (amended).** An orphaned child never reaches the export output,
but the operation does not fail: the orphan is excluded from the top-level
selection (its `parentId` is non-null) and is never fetched as a child of
any existing block (no block carries the dangling id), so the compiler —
a total function — simply emits nothing for it. -/
theorem orphan_never_fetched (blocks : List EditorBlock) (b : EditorBlock) (pid : String)
    (hparent : b.parentId = some pid)
    (hghost : ∀ g ∈ blocks, g.id ≠ pid) :
    b ∉ rootBlocksOf blocks ∧ ∀ g ∈ blocks, b ∉ childrenOf g blocks := by
  constructor
  · intro hmem2
    have h2 := (List.mem_filter.mp hmem2).2
    rw [hparent] at h2
    simp at h2
  · intro g hg hmem2
    have h2 := (List.mem_filter.mp hmem2).2
    rw [hparent] at h2
    simp only [beq_iff_eq, Option.some.injEq] at h2
    exact hghost g hg h2.symm

/-- **C9 witness.** The amended statement evaluated on a concrete scene
with one real group and one orphan. -/
theorem orphan_never_fetched_witness :
    c9Orphan.parentId = some "ghost" ∧
    (∀ g ∈ c9Blocks, g.id ≠ "ghost") ∧
    (c9Orphan ∉ rootBlocksOf c9Blocks ∧ ∀ g ∈ c9Blocks, c9Orphan ∉ childrenOf g c9Blocks) :=
  ⟨by decide, by decide, orphan_never_fetched c9Blocks c9Orphan "ghost" (by decide) (by decide)⟩

/-! ## C10 — HTML escaping of user-supplied strings -/

/-- The composition of the five per-character replacement passes equals
`escChar` on every character. -/
theorem escChar_composite (c : Char) :
    ((if c = '&' then "&amp;".data else [c]).flatMap fun b1 =>
        (if b1 = '<' then "&lt;".data else [b1]).flatMap fun b2 =>
          (if b2 = '>' then "&gt;".data else [b2]).flatMap fun b3 =>
            (if b3 = '"' then "&quot;".data else [b3]).flatMap fun ch =>
              if ch = apos then "&#039;".data else [ch]) = escChar c := by
  by_cases h1 : c = '&'
  · subst h1
    decide
  by_cases h2 : c = '<'
  · subst h2
    decide
  by_cases h3 : c = '>'
  · subst h3
    decide
  by_cases h4 : c = '"'
  · subst h4
    decide
  by_cases h5 : c = apos
  · subst h5
    decide
  simp [escChar, h1, h2, h3, h4, h5]

/-- `escapeHtml` is the character-wise substitution `escChar`. -/
theorem escapeHtml_data (s : String) : (escapeHtml s).data = s.data.flatMap escChar := by
  show (((((s.data.flatMap (fun ch => if ch = '&' then "&amp;".data else [ch])).flatMap
          (fun ch => if ch = '<' then "&lt;".data else [ch])).flatMap
        (fun ch => if ch = '>' then "&gt;".data else [ch])).flatMap
      (fun ch => if ch = '"' then "&quot;".data else [ch])).flatMap
      (fun ch => if ch = apos then "&#039;".data else [ch])) = s.data.flatMap escChar
  rw [List.flatMap_assoc, List.flatMap_assoc, List.flatMap_assoc, List.flatMap_assoc]
  exact congrArg _ (funext escChar_composite)

/-- No output of `escChar` contains a raw `<`, `>`, `"` or `'`. -/
theorem escChar_no_forbidden (c c' : Char) (h : c' ∈ escChar c) :
    c' ≠ '<' ∧ c' ≠ '>' ∧ c' ≠ '"' ∧ c' ≠ apos := by
  by_cases h1 : c = '&'
  · exact (by decide : ∀ x ∈ escChar '&', x ≠ '<' ∧ x ≠ '>' ∧ x ≠ '"' ∧ x ≠ apos) c' (h1 ▸ h)
  by_cases h2 : c = '<'
  · exact (by decide : ∀ x ∈ escChar '<', x ≠ '<' ∧ x ≠ '>' ∧ x ≠ '"' ∧ x ≠ apos) c' (h2 ▸ h)
  by_cases h3 : c = '>'
  · exact (by decide : ∀ x ∈ escChar '>', x ≠ '<' ∧ x ≠ '>' ∧ x ≠ '"' ∧ x ≠ apos) c' (h3 ▸ h)
  by_cases h4 : c = '"'
  · exact (by decide : ∀ x ∈ escChar '"', x ≠ '<' ∧ x ≠ '>' ∧ x ≠ '"' ∧ x ≠ apos) c' (h4 ▸ h)
  by_cases h5 : c = apos
  · exact (by decide : ∀ x ∈ escChar apos, x ≠ '<' ∧ x ≠ '>' ∧ x ≠ '"' ∧ x ≠ apos) c' (h5 ▸ h)
  unfold escChar at h
  rw [if_neg h1, if_neg h2, if_neg h3, if_neg h4, if_neg h5] at h
  simp at h
  subst h
  exact ⟨h2, h3, h4, h5⟩

/-- **C10.** Every user-supplied string routed through `escapeHtml` (text
content, button label and href, image src/alt, social hrefs, table cells,
list items — the generators call it on exactly these) reaches the output
with `&`, `<`, `>`, `"`, `'` replaced by their HTML entities: `escapeHtml`
is the per-character entity substitution `escChar`, its output never
contains a raw `<`, `>`, `"` or `'`, and the text/button generators emit
the escaped content verbatim between constant-shaped fragments. -/
theorem escapeHtml_escapes :
    (∀ s : String, (escapeHtml s).data = s.data.flatMap escChar) ∧
    (∀ (s : String) (c : Char), c ∈ (escapeHtml s).data →
      c ≠ '<' ∧ c ≠ '>' ∧ c ≠ '"' ∧ c ≠ apos) ∧
    (∀ (block : EditorBlock) (tokens : List DesignToken),
      ∃ pre : String,
        generateTextMJML block tokens = pre ++ escapeHtml block.content ++ "</mj-text>") ∧
    (∀ (block : EditorBlock) (tokens : List DesignToken),
      ∃ pre mid : String,
        generateButtonMJML block tokens =
          pre ++ escapeHtml (jsOrO block.link "#") ++ mid ++ escapeHtml block.content ++
            "</mj-button>") := by
  refine ⟨escapeHtml_data, ?_, ?_, ?_⟩
  · intro s c hc
    rw [escapeHtml_data] at hc
    obtain ⟨a, _, ha⟩ := List.mem_flatMap.mp hc
    exact escChar_no_forbidden a c ha
  · intro block tokens
    exact ⟨_, rfl⟩
  · intro block tokens
    exact ⟨_, _, rfl⟩

/-- **C10 witness.** The characterization evaluated on a concrete string
containing all five special characters. -/
theorem escapeHtml_escapes_witness :
    (escapeHtml "a&b<c>d\"e").data = "a&b<c>d\"e".data.flatMap escChar ∧
    escapeHtml "a&b<c>d\"e" = "a&amp;b&lt;c&gt;d&quot;e" :=
  ⟨escapeHtml_escapes.1 "a&b<c>d\"e", by decide⟩

/-! ## C8 — groups are transparent in the export -/

/-- **C8.** A (visible) group block is never emitted as a container: with
no children it renders to the empty string; otherwise its output is
exactly the newline-join of its children's own renders, sorted ascending
by `y`, with empty renders dropped — and `wrapInSection` never wraps a
group's output in any element. -/
theorem group_transparent (fuel : Nat) (block : EditorBlock) (allBlocks : List EditorBlock)
    (tokens : List DesignToken) (hty : block.type = BlockType.group)
    (hvis : block.isVisible = true) :
    (childrenOf block allBlocks = [] → generateBlockMJML (fuel + 1) block allBlocks tokens = "") ∧
    (childrenOf block allBlocks ≠ [] →
      generateBlockMJML (fuel + 1) block allBlocks tokens =
        String.intercalate "\n"
          (((sortByY (childrenOf block allBlocks)).map
              (fun child => generateBlockMJML fuel child allBlocks tokens)).filter
            (fun s => s ≠ ""))) ∧
    (∀ s : String, wrapInSection s block = if s.trim = "" then "" else s) := by
  have hstep : generateBlockMJML (fuel + 1) block allBlocks tokens =
      generateGroupMJML fuel block allBlocks tokens := by
    rw [generateBlockMJML]
    rw [hvis]
    simp only [Bool.true_eq_false, if_false]
    rw [hty]
  refine ⟨?_, ?_, ?_⟩
  · intro h
    rw [hstep, generateGroupMJML, h]
    rfl
  · intro h
    rw [hstep, generateGroupMJML]
    rw [if_neg]
    simp [List.isEmpty_iff, h]
  · intro s
    simp [wrapInSection, hty]

/-- **C8 witness.** The spec's test scene: a group with two children at
relative y = 0 and y = 40 (stored in reverse order) flattens to the two
children's own renders in ascending-y order joined by a newline, with no
group wrapper, and `wrapInSection` passes the group output through
unchanged. -/
theorem group_transparent_witness :
    c8Group.type = BlockType.group ∧
    c8Group.isVisible = true ∧
    ((childrenOf c8Group c8Blocks = [] → generateBlockMJML 2 c8Group c8Blocks [] = "") ∧
      (childrenOf c8Group c8Blocks ≠ [] →
        generateBlockMJML 2 c8Group c8Blocks [] =
          String.intercalate "\n"
            (((sortByY (childrenOf c8Group c8Blocks)).map
                (fun child => generateBlockMJML 1 child c8Blocks [])).filter
              (fun s => s ≠ ""))) ∧
      (∀ s : String, wrapInSection s c8Group = if s.trim = "" then "" else s)) ∧
    generateBlockMJML 2 c8Group c8Blocks [] =
      generateTextMJML c8Child1 [] ++ "\n" ++ generateTextMJML c8Child2 [] :=
  ⟨by decide, by decide, group_transparent 1 c8Group c8Blocks [] (by decide) (by decide),
    by with_unfolding_all decide⟩

/-! ## C2 — export emits top-level blocks in ascending y order -/

/-- The comparison used by `sortByY` is transitive. -/
theorem sortByY_trans : ∀ a b c : EditorBlock,
    decide (a.layout.y ≤ b.layout.y) = true → decide (b.layout.y ≤ c.layout.y) = true →
      decide (a.layout.y ≤ c.layout.y) = true := by
  intro a b c h1 h2
  simp only [decide_eq_true_eq] at h1 h2 ⊢
  exact le_trans h1 h2

/-- The comparison used by `sortByY` is total. -/
theorem sortByY_total : ∀ a b : EditorBlock,
    (decide (a.layout.y ≤ b.layout.y) || decide (b.layout.y ≤ a.layout.y)) = true := by
  intro a b
  simp only [Bool.or_eq_true, decide_eq_true_eq]
  exact le_total _ _

/-- **C2.** For every block set, the export emits top-level blocks in
ascending `layout.y` order: whenever `B.layout.y < A.layout.y` for two
top-level blocks whose wrapped renders are nonempty, the list of sections
the export joins into the document body contains `B`'s markup strictly
before `A`'s, regardless of insertion order or `zIndex`. -/
theorem export_emits_ascending_y (blocks : List EditorBlock) (tokens : List DesignToken)
    (A B : EditorBlock) (hA : A ∈ blocks) (hB : B ∈ blocks)
    (hAtop : A.parentId = none) (hBtop : B.parentId = none)
    (hy : B.layout.y < A.layout.y)
    (hBne : wrapInSection (generateBlockMJML (blocks.length + 1) B blocks tokens) B ≠ "")
    (hAne : wrapInSection (generateBlockMJML (blocks.length + 1) A blocks tokens) A ≠ "") :
    ∃ pre mid post : List String,
      sectionsOf blocks tokens =
        pre ++ wrapInSection (generateBlockMJML (blocks.length + 1) B blocks tokens) B ::
          (mid ++ wrapInSection (generateBlockMJML (blocks.length + 1) A blocks tokens) A ::
            post) := by
  have hAroot : A ∈ rootBlocksOf blocks := List.mem_filter.mpr ⟨hA, by simp [hAtop]⟩
  have hBroot : B ∈ rootBlocksOf blocks := List.mem_filter.mpr ⟨hB, by simp [hBtop]⟩
  have hAs : A ∈ sortByY (rootBlocksOf blocks) := List.mem_mergeSort.mpr hAroot
  have hBs : B ∈ sortByY (rootBlocksOf blocks) := List.mem_mergeSort.mpr hBroot
  have hsorted : List.Pairwise (fun a b : EditorBlock =>
      decide (a.layout.y ≤ b.layout.y) = true) (sortByY (rootBlocksOf blocks)) :=
    List.sorted_mergeSort sortByY_trans sortByY_total (rootBlocksOf blocks)
  obtain ⟨s1, s2, hsplit⟩ := List.append_of_mem hAs
  have hBs1 : B ∈ s1 := by
    rw [hsplit] at hBs
    rcases List.mem_append.mp hBs with h | h
    · exact h
    rcases List.mem_cons.mp h with h | h
    · exfalso
      rw [h] at hy
      exact lt_irrefl _ hy
    · exfalso
      rw [hsplit] at hsorted
      have hAB := (List.pairwise_cons.mp (List.pairwise_append.mp hsorted).2.1).1 B h
      simp only [decide_eq_true_eq] at hAB
      exact absurd hy (not_lt.mpr hAB)
  obtain ⟨p1, q1, hsplit2⟩ := List.append_of_mem hBs1
  have hall : sortByY (rootBlocksOf blocks) = p1 ++ B :: (q1 ++ A :: s2) := by
    rw [hsplit, hsplit2]
    simp
  refine ⟨((p1.map (fun block => wrapInSection
      (generateBlockMJML (blocks.length + 1) block blocks tokens) block)).filter
        (fun s => s ≠ "")),
    ((q1.map (fun block => wrapInSection
      (generateBlockMJML (blocks.length + 1) block blocks tokens) block)).filter
        (fun s => s ≠ "")),
    ((s2.map (fun block => wrapInSection
      (generateBlockMJML (blocks.length + 1) block blocks tokens) block)).filter
        (fun s => s ≠ "")), ?_⟩
  rw [sectionsOf, hall]
  simp only [List.map_append, List.map_cons, List.filter_append, List.filter_cons]
  simp [hAne, hBne]

/-- **C2 witness.** The spec's export test: A at y = 50, B at y = 10, both
top-level, with A inserted first and carrying the higher z-index; B's
markup precedes A's in the emitted section list. -/
theorem export_emits_ascending_y_witness :
    c2A ∈ c2Blocks ∧ c2B ∈ c2Blocks ∧
    c2A.parentId = none ∧ c2B.parentId = none ∧
    c2B.layout.y < c2A.layout.y ∧
    c2A.layout.zIndex = 5 ∧ c2B.layout.zIndex = 0 ∧
    (∃ pre mid post : List String,
      sectionsOf c2Blocks [] =
        pre ++ wrapInSection (generateBlockMJML (c2Blocks.length + 1) c2B c2Blocks []) c2B ::
          (mid ++ wrapInSection (generateBlockMJML (c2Blocks.length + 1) c2A c2Blocks []) c2A ::
            post)) :=
  ⟨by decide, by decide, by decide, by decide, by with_unfolding_all decide,
    by decide, by decide,
    export_emits_ascending_y c2Blocks [] c2A c2B (by decide) (by decide) (by decide)
      (by decide) (by with_unfolding_all decide) (by with_unfolding_all decide)
      (by with_unfolding_all decide)⟩

/-! ## C7 — guide deduplication by (axis, position) -/

/-- `jabs` is the usual absolute value. -/
theorem jabs_eq_abs (q : ℚ) : jabs q = |q| := by
  unfold jabs
  split
  · exact (abs_of_neg (by assumption)).symm
  · exact (abs_of_nonneg (not_lt.mp (by assumption))).symm

/-- The dedup key in propositional form. -/
theorem sameGuidePos_iff (a b : GuideLine) :
    sameGuidePos a b = true ↔ a.axis = b.axis ∧ jabs (a.position - b.position) < 1 := by
  simp [sameGuidePos]

/-- The dedup key is symmetric. -/
theorem sameGuidePos_symm (a b : GuideLine) (h : sameGuidePos a b = true) :
    sameGuidePos b a = true := by
  rw [sameGuidePos_iff] at h ⊢
  rw [jabs_eq_abs] at h ⊢
  rw [abs_sub_comm]
  exact ⟨h.1.symm, h.2⟩

/-- If some element at index `i` satisfies `p`, then `findIdx p` is at most
`i` (JS `findIndex` returns the first hit). -/
theorem findIdx_le_of_getElem {α : Type} (p : α → Bool) (l : List α) (i : Nat)
    (hi : i < l.length) (h : p (l.get ⟨i, hi⟩) = true) : l.findIdx p ≤ i := by
  by_contra hlt
  push_neg at hlt
  have hfalse := List.not_of_lt_findIdx hlt
  rw [List.get_eq_getElem] at h
  rw [h] at hfalse
  exact Bool.true_eq_false.mp hfalse

/-- Membership in `dedupGuides` yields an index whose guide is the *first*
one carrying its `(axis, position)` key. -/
theorem mem_dedupGuides (gs : List GuideLine) (g : GuideLine) (h : g ∈ dedupGuides gs) :
    ∃ i, ∃ hi : i < gs.length,
      gs.get ⟨i, hi⟩ = g ∧ gs.findIdx (fun g' => sameGuidePos g' g) = i := by
  unfold dedupGuides at h
  obtain ⟨pr, hpr, hsnd⟩ := List.mem_map.mp h
  have hmem := (List.mem_filter.mp hpr).1
  have hq := (List.mem_filter.mp hpr).2
  obtain ⟨j, hj, hje⟩ := List.mem_iff_getElem.mp hmem
  have hjlen : j < gs.length := by
    rw [List.enum_length] at hj
    exact hj
  rw [List.getElem_enum] at hje
  refine ⟨j, hjlen, ?_, ?_⟩
  · rw [List.get_eq_getElem]
    rw [← hsnd, ← hje]
  · have : pr.1 = j ∧ pr.2 = gs[j] := by
      rw [← hje]
      exact ⟨rfl, rfl⟩
    rw [beq_iff_eq] at hq
    rw [hsnd] at hq
    rw [this.1] at hq
    exact hq

/-- Two guides kept by the deduplication that share the same key are the
same list entry. -/
theorem dedupGuides_unique (gs : List GuideLine) (g1 g2 : GuideLine)
    (h1 : g1 ∈ dedupGuides gs) (h2 : g2 ∈ dedupGuides gs)
    (hsame : sameGuidePos g1 g2 = true) : g1 = g2 := by
  obtain ⟨i1, hi1, hget1, hidx1⟩ := mem_dedupGuides gs g1 h1
  obtain ⟨i2, hi2, hget2, hidx2⟩ := mem_dedupGuides gs g2 h2
  have hle21 : i2 ≤ i1 := by
    rw [← hidx2]
    apply findIdx_le_of_getElem _ _ _ hi1
    rw [hget1]
    exact hsame
  have hle12 : i1 ≤ i2 := by
    rw [← hidx1]
    apply findIdx_le_of_getElem _ _ _ hi2
    rw [hget2]
    exact sameGuidePos_symm _ _ hsame
  have heq : i1 = i2 := le_antisymm hle12 hle21
  rw [← hget1, ← hget2]
  congr 1
  exact Fin.ext heq

/-- **C7.** The guides returned by `calculateSnapping` are deduplicated by
`(axis, position)`: no two distinct guides in the result share the same
axis and a position within 1px, so several candidates aligned at the
winning coordinate produce exactly one guide there. -/
theorem snap_guides_deduped (draggingBlock : EditorBlock) (dragX dragY : ℚ)
    (otherBlocks : List EditorBlock) (g1 g2 : GuideLine)
    (h1 : g1 ∈ (calculateSnapping draggingBlock dragX dragY otherBlocks).guides)
    (h2 : g2 ∈ (calculateSnapping draggingBlock dragX dragY otherBlocks).guides)
    (haxis : g1.axis = g2.axis)
    (hpos : jabs (g1.position - g2.position) < 1) : g1 = g2 := by
  simp only [calculateSnapping] at h1 h2
  exact dedupGuides_unique _ g1 g2 h1 h2 ((sameGuidePos_iff g1 g2).mpr ⟨haxis, hpos⟩)

/-- **C7 witness.** The spec's scenario: three blocks share the vertical
center y = 100; dragging a fourth block so its center lands within
threshold produces exactly one guide at that line (not one per candidate),
and the claim's uniqueness instance holds for it. -/
theorem snap_guides_deduped_witness :
    (calculateSnapping c7Mover 120 87 c7Candidates).guides = [c7Guide] ∧
    (calculateSnapping c7Mover 120 87 c7Candidates).snapY = some 85 ∧
    c7Guide ∈ (calculateSnapping c7Mover 120 87 c7Candidates).guides ∧
    c7Guide = c7Guide :=
  ⟨by with_unfolding_all decide, by with_unfolding_all decide, by with_unfolding_all decide,
    snap_guides_deduped c7Mover 120 87 c7Candidates c7Guide c7Guide
      (by with_unfolding_all decide) (by with_unfolding_all decide) rfl
      (by with_unfolding_all decide)⟩

/-! ## C6 — snapping two left edges at 100 and 103 -/

/-- An alignment test whose condition holds installs the new best snap. -/
theorem axisTest_take (d pos : ℚ) (a : AxisAcc)
    (h : (decide (d < SNAP_THRESHOLD) && ltClosest d a.closest) = true) :
    axisTest d pos a = { closest := some d, snap := some pos } := by
  unfold axisTest
  rw [h]
  rfl

/-- An alignment test whose condition fails leaves the accumulator. -/
theorem axisTest_skip (d pos : ℚ) (a : AxisAcc)
    (h : (decide (d < SNAP_THRESHOLD) && ltClosest d a.closest) = false) :
    axisTest d pos a = a := by
  unfold axisTest
  rw [h]
  rfl

/-- **C6 counterexample.** Dragging the second block to x = 107 — inside
103 ± 4 — does *not* snap: the distance to the candidate's left edge is 7,
beyond the strict 5px threshold, so `snapX = null` and no guide is
produced. -/
theorem snap_at_107_misses :
    ((103 : ℚ) - 4 ≤ 107 ∧ (107 : ℚ) ≤ 103 + 4) ∧
    (calculateSnapping c6Mover 107 300 [c6Cand]).snapX = none ∧
    (calculateSnapping c6Mover 107 300 [c6Cand]).guides = [] := by
  with_unfolding_all decide

/-- For a proposed x in [99, 107] within 5px of 100, the five X tests
against the candidate bounds leave exactly the left-to-left snap at 100. -/
theorem c6_xacc (x : ℚ) (h1 : 99 ≤ x) (h2 : x ≤ 107) (h3 : jabs (x - 100) < 5) :
    candidateXTests x 50
        { id := "c1", left := 100, right := 140, top := 0, bottom := 50,
          centerX := 120, centerY := 25, width := 40, height := 50 }
        { closest := none, snap := none } =
      { closest := some (jabs (x - 100)), snap := some 100 } := by
  have habs : |x - 100| < 5 := by
    rw [← jabs_eq_abs]
    exact h3
  rw [abs_lt] at habs
  simp only [candidateXTests]
  rw [axisTest_take (jabs (x - 100)) 100 { closest := none, snap := none }
    (by simp [SNAP_THRESHOLD, ltClosest, h3])]
  rw [axisTest_skip (jabs (x + 50 - 140)) (140 - 50) _
    (by
      have hfar : ¬ (jabs (x + 50 - 140) < SNAP_THRESHOLD) := by
        rw [jabs_eq_abs, SNAP_THRESHOLD, abs_lt]
        rintro ⟨ha, hb⟩
        linarith
      simp [hfar])]
  rw [axisTest_skip (jabs (x - 140)) 140 _
    (by
      have hfar : ¬ (jabs (x - 140) < SNAP_THRESHOLD) := by
        rw [jabs_eq_abs, SNAP_THRESHOLD, abs_lt]
        rintro ⟨ha, hb⟩
        linarith
      simp [hfar])]
  rw [axisTest_skip (jabs (x + 50 - 100)) (100 - 50) _
    (by
      have hfar : ¬ (jabs (x + 50 - 100) < SNAP_THRESHOLD) := by
        rw [jabs_eq_abs, SNAP_THRESHOLD, abs_lt]
        rintro ⟨ha, hb⟩
        linarith
      simp [hfar])]
  rw [axisTest_skip (jabs (x + 50 / 2 - 120)) (120 - 50 / 2) _
    (by
      have h25 : x + 50 / 2 - 120 = x - 95 := by ring
      rcases lt_or_le x 100 with hx | hx
      · have hnotcloser : ¬ (jabs (x + 50 / 2 - 120) < jabs (x - 100)) := by
          rw [h25, jabs_eq_abs, jabs_eq_abs]
          rw [abs_of_nonneg (by linarith : (0 : ℚ) ≤ x - 95)]
          rw [abs_of_nonpos (by linarith : x - 100 ≤ 0)]
          intro hcon
          linarith
        simp [ltClosest, hnotcloser]
      · have hfar : ¬ (jabs (x + 50 / 2 - 120) < SNAP_THRESHOLD) := by
          rw [h25, jabs_eq_abs, SNAP_THRESHOLD]
          rw [abs_of_nonneg (by linarith : (0 : ℚ) ≤ x - 95)]
          intro hcon
          linarith
        simp [hfar])]

/-- **C6 (amended).** With left edges at 100 (candidate, 40 wide) and 103
(moving block, 50 wide), dragging the second block to any proposed x
within 103 ± 4 *that is also within the strict 5px threshold of 100*
(i.e. 99 ≤ x < 105) snaps to `snappedX = 100` and produces exactly one
vertical guide at position 100; the proposed y (300) is unchanged and no
vertical-axis (Y) snap fires. -/
theorem snap_to_left_edge (x : ℚ) (h1 : 99 ≤ x) (h2 : x ≤ 107) (h3 : jabs (x - 100) < 5) :
    (calculateSnapping c6Mover x 300 [c6Cand]).snapX = some 100 ∧
    (calculateSnapping c6Mover x 300 [c6Cand]).snapY = none ∧
    (calculateSnapping c6Mover x 300 [c6Cand]).guides = [c6Guide] := by
  have hB : ([c6Cand].filter (fun b => b.id != c6Mover.id && b.isVisible)).map getBlockBounds =
      [{ id := "c1", left := 100, right := 140, top := 0, bottom := 50,
         centerX := 120, centerY := 25, width := 40, height := 50 }] := by
    with_unfolding_all decide
  have hW : (getBlockBounds c6Mover).width = 50 := by with_unfolding_all decide
  have hH : (getBlockBounds c6Mover).height = 50 := by with_unfolding_all decide
  have hy : candidateYTests 300 50
      { id := "c1", left := 100, right := 140, top := 0, bottom := 50,
        centerX := 120, centerY := 25, width := 40, height := 50 }
      { closest := none, snap := none } = { closest := none, snap := none } := by
    with_unfolding_all decide
  have hg : guidesForCandidate (some 100) none 100 300 50 50
      { id := "c1", left := 100, right := 140, top := 0, bottom := 50,
        centerX := 120, centerY := 25, width := 40, height := 50 } = [c6Guide] := by
    with_unfolding_all decide
  have hd : dedupGuides [c6Guide] = [c6Guide] := by with_unfolding_all decide
  have hcalc : calculateSnapping c6Mover x 300 [c6Cand] =
      { snapX := some 100, snapY := none, guides := [c6Guide] } := by
    simp only [calculateSnapping, hB, hW, hH, List.foldl_cons, List.foldl_nil]
    rw [c6_xacc x h1 h2 h3, hy]
    simp only [List.flatMap_cons, List.flatMap_nil, List.append_nil]
    rw [hg, hd]
  rw [hcalc]
  exact ⟨rfl, rfl, rfl⟩

/-- **C6 witness.** The amended statement evaluated at the proposed
x = 103 (the drag start itself, inside both bounds). -/
theorem snap_to_left_edge_witness :
    ((99 : ℚ) ≤ 103 ∧ (103 : ℚ) ≤ 107 ∧ jabs ((103 : ℚ) - 100) < 5) ∧
    ((calculateSnapping c6Mover 103 300 [c6Cand]).snapX = some 100 ∧
      (calculateSnapping c6Mover 103 300 [c6Cand]).snapY = none ∧
      (calculateSnapping c6Mover 103 300 [c6Cand]).guides = [c6Guide]) :=
  ⟨⟨by with_unfolding_all decide, by with_unfolding_all decide, by with_unfolding_all decide⟩,
    snap_to_left_edge 103 (by with_unfolding_all decide) (by with_unfolding_all decide)
      (by with_unfolding_all decide)⟩
